import Mathlib

/-!
Verification of the discordrus Logrus→Discord webhook hook (`hook.go`).

The Go source is shallowly embedded: pure computations become Lean
functions, the mutation of the caller's request body stream is made
explicit by returning the post-call request value, and the delivery
goroutine (which is deterministic up to the network call) is modelled as
a pure function producing a description of the outbound POST.  Go byte
slices and strings are both modelled as Lean `String`, with Go's `len`
on them modelled by `String.utf8ByteSize`.
-/

/-- Logrus log levels (github.com/sirupsen/logrus). -/
inductive LogrusLevel
  | PanicLevel
  | FatalLevel
  | ErrorLevel
  | WarnLevel
  | InfoLevel
  | DebugLevel
  | TraceLevel
deriving DecidableEq

/-- logrus `Level.String()`: the lowercase name of the level
(`WarnLevel` prints as "warning"). -/
def LogrusLevel.str : LogrusLevel → String
  | .PanicLevel => "panic"
  | .FatalLevel => "fatal"
  | .ErrorLevel => "error"
  | .WarnLevel => "warning"
  | .InfoLevel => "info"
  | .DebugLevel => "debug"
  | .TraceLevel => "trace"

/-- hook.go lines 139-147: the `switch entry.Level` assigning `embedCollor`. -/
def embedColor : LogrusLevel → Nat
  | .PanicLevel | .FatalLevel | .ErrorLevel => 16725591
  | .WarnLevel => 16760630
  | _ => 12434877

/-- hook.go line 43: the key used to access HTTP request data in logrus fields. -/
def REQUEST_FIELD_KEY : String := "request"

/-- Model of an `io.ReadCloser` body stream: it yields `bytes` and then
either reports EOF (`failsAfter = false`) or a read error
(`failsAfter = true`).  `io.ReadAll` on such a stream returns `bytes`
together with the error flag; hook.go discards the error
(`bodyBytes, _ = io.ReadAll(...)`). -/
structure BodyStreamM where
  bytes : String
  failsAfter : Bool
deriving DecidableEq

/-- Model of one `*multipart.FileHeader`: hook.go only reads `Filename`
and `Size` (bytes). -/
structure FileHeaderM where
  filename : String
  size : Nat
deriving DecidableEq

/-- Model of `*multipart.Form`: the `Value` and `File` maps, as
association lists (Go map iteration order is irrelevant here because
`json.MarshalIndent` sorts map keys). -/
structure MultipartFormM where
  value : List (String × List String)
  file : List (String × List FileHeaderM)
deriving DecidableEq

/-- Result of `multipart.Reader.ReadForm` on the request's body with its
boundary; the MIME wire parsing itself is kept abstract, only its
outcome is part of the request model. -/
inductive ReadFormResult
  | formOk (f : MultipartFormM)
  | formErr (msg : String)
deriving DecidableEq

/-- Model of the parts of `*http.Request` that hook.go reads: `Method`,
`URL.String()`, `Header.Get("Content-Type")`, `Body`, plus the abstract
outcome of multipart `ReadForm` on that body (see `ReadFormResult`). -/
structure RequestM where
  method : String
  url : String
  contentType : String
  body : Option BodyStreamM
  readFormResult : ReadFormResult
deriving DecidableEq

/-- hook.go lines 48-57: `LoggerHttpRequestPayload`. -/
structure LoggerHttpRequestPayload where
  request : Option RequestM
  method : String
  url : String
  bodyString : String
  headers : String
deriving DecidableEq

/-- Dynamic values stored in `entry.Data`; the Go type assertions
`v.(LoggerHttpRequestPayload)`, `v.(error)` and `v.(string)` succeed
exactly on the corresponding constructors. -/
inductive FieldValue
  | reqPayload (p : LoggerHttpRequestPayload)
  | reqPayloadPtr (p : LoggerHttpRequestPayload)
  | errValue (msg : String)
  | strValue (s : String)
  | otherValue
deriving DecidableEq

/-- Model of `*logrus.Entry`: the fields hook.go reads.  `timeRFC3339`
stands for the already-formatted `entry.Time.UTC().Format(time.RFC3339)`
string (time itself is not embedded). -/
structure Entry where
  data : List (String × FieldValue)
  level : LogrusLevel
  message : String
  timeRFC3339 : String
deriving DecidableEq

/-- hook.go lines 60-63: the `Hook` struct. -/
structure Hook where
  HookUrl : String
  lvl : List LogrusLevel
deriving DecidableEq

/-- hook.go lines 68-83: `NewHook`; an empty level list is replaced by
the four-level default. -/
def NewHook (webhookURL : String) (levels : List LogrusLevel) : Hook :=
  { HookUrl := webhookURL,
    lvl := if levels.length = 0 then
             [.PanicLevel, .FatalLevel, .ErrorLevel, .WarnLevel]
           else levels }

/-- hook.go lines 86-88: `Levels`. -/
def Hook.Levels (h : Hook) : List LogrusLevel := h.lvl

/-- Does the char-list `pre` start the char-list `l`?  (Helper for the
model of `strings.Contains`.) -/
def startsW : List Char → List Char → Bool
  | _, [] => true
  | [], _ :: _ => false
  | c :: cs, d :: ds => c == d && startsW cs ds

/-- Does `sub` occur inside `s`?  (Model of `strings.Contains` on the
underlying byte/char lists.) -/
def containsL : List Char → List Char → Bool
  | [], sub => sub.isEmpty
  | c :: rest, sub => startsW (c :: rest) sub || containsL rest sub

/-- Model of `strings.Contains`. -/
def strContains (s sub : String) : Bool := containsL s.data sub.data

/-- Model of `strings.ToUpper` (the level names are ASCII). -/
def upperS (s : String) : String := String.mk (s.data.map Char.toUpper)

/-- Characters of `l` up to (excluding) the first occurrence of `c`. -/
def upTo (c : Char) : List Char → List Char
  | [] => []
  | d :: ds => if d = c then [] else d :: upTo c ds

/-- Split a char list on a separator character (every occurrence). -/
def splitOnChar (c : Char) : List Char → List (List Char)
  | [] => [[]]
  | d :: ds =>
    match splitOnChar c ds with
    | [] => [[]]
    | grp :: rest => if d = c then [] :: grp :: rest else (d :: grp) :: rest

/-- Cut a char list at the first occurrence of `c` (model of
`strings.Cut`; the second component is empty when `c` is absent). -/
def cutAtChar (c : Char) : List Char → List Char × List Char
  | [] => ([], [])
  | d :: ds => if d = c then ([], ds) else
      let r := cutAtChar c ds
      (d :: r.1, r.2)

/-- Trim whitespace from both ends (model of `strings.TrimSpace`). -/
def trimL (l : List Char) : List Char :=
  ((l.dropWhile Char.isWhitespace).reverse.dropWhile Char.isWhitespace).reverse

/-- ASCII lowercase a char list. -/
def lowerL (l : List Char) : List Char := l.map Char.toLower

/-- Media type of a Content-Type header: the part before the first `;`,
trimmed and lowercased (model of the media-type part of
`mime.ParseMediaType`; parameter-syntax errors are not modelled). -/
def mediaTypeOf (ct : String) : String :=
  String.mk (lowerL (trimL (upTo ';' ct.data)))

/-- Does the Content-Type carry a `boundary=` parameter?  (Simplified
model of the parameter scan inside `mime.ParseMediaType` as consumed by
`http.Request.multipartReader`.) -/
def hasBoundaryParam (ct : String) : Bool :=
  ((splitOnChar ';' ct.data).drop 1).any
    (fun p => startsW (lowerL (trimL p)) "boundary=".data)

/-- JSON values as produced by hook.go (strings, arrays, string-keyed
objects).  Objects built from Go maps are key-sorted at construction,
mirroring the key sorting `encoding/json` performs when serializing
maps. -/
inductive Json
  | str (s : String)
  | arr (xs : List Json)
  | obj (kvs : List (String × Json))

/-- Insert a key/value pair into a key-sorted pair list. -/
def insertPair (p : String × Json) : List (String × Json) → List (String × Json)
  | [] => [p]
  | q :: qs => if p.1 ≤ q.1 then p :: q :: qs else q :: insertPair p qs

/-- Sort a pair list by key (insertion sort), the order in which
`encoding/json` emits Go map entries. -/
def sortPairs : List (String × Json) → List (String × Json)
  | [] => []
  | p :: ps => insertPair p (sortPairs ps)

/-- Escape one character as `encoding/json` does inside string literals
(with its default HTML escaping). -/
def jsonEscapeChar (c : Char) : String :=
  if c = '"' then "\\\""
  else if c = '\\' then "\\\\"
  else if c = '\n' then "\\n"
  else if c = '\r' then "\\r"
  else if c = '\t' then "\\t"
  else if c = '<' then "\\u003c"
  else if c = '>' then "\\u003e"
  else if c = '&' then "\\u0026"
  else if c.toNat < 32 then
    "\\u00" ++ String.mk [Nat.digitChar (c.toNat / 16), Nat.digitChar (c.toNat % 16)]
  else String.singleton c

/-- Escape a string as `encoding/json` does. -/
def jsonEscape (s : String) : String :=
  String.join (s.data.map jsonEscapeChar)

mutual

/-- Serialize a `Json` value the way `json.MarshalIndent(v, "", "  ")`
does; `ind` is the indentation prefix of the enclosing line. -/
def Json.render (ind : String) : Json → String
  | Json.str s => "\"" ++ jsonEscape s ++ "\""
  | Json.arr [] => "[]"
  | Json.arr (x :: xs) =>
      "[\n" ++ renderArr (ind ++ "  ") x xs ++ "\n" ++ ind ++ "]"
  | Json.obj [] => "\x7b\x7d"
  | Json.obj ((k, v) :: kvs) =>
      "\x7b\n" ++ renderObj (ind ++ "  ") k v kvs ++ "\n" ++ ind ++ "\x7d"
termination_by j => sizeOf j

/-- Comma-separated, indented rendering of array elements. -/
def renderArr (ind : String) (x : Json) : List Json → String
  | [] => ind ++ Json.render ind x
  | y :: ys => ind ++ Json.render ind x ++ ",\n" ++ renderArr ind y ys
termination_by ys => sizeOf x + sizeOf ys

/-- Comma-separated, indented rendering of object entries. -/
def renderObj (ind : String) (k : String) (v : Json) : List (String × Json) → String
  | [] => ind ++ "\"" ++ jsonEscape k ++ "\": " ++ Json.render ind v
  | (k2, v2) :: kvs =>
      ind ++ "\"" ++ jsonEscape k ++ "\": " ++ Json.render ind v ++ ",\n"
        ++ renderObj ind k2 v2 kvs
termination_by kvs => sizeOf v + sizeOf kvs

end

/-- Top-level `json.MarshalIndent(v, "", "  ")`.  hook.go only feeds it
maps of strings/string-lists/sub-maps, for which marshalling cannot
fail, so the `err == nil` guards around it always append their field. -/
def marshalIndent (v : Json) : String := Json.render "" v

/-- Is `c` an ASCII hex digit (`ishex` in net/url)? -/
def isHexChar (c : Char) : Bool :=
  c.isDigit || ('a' ≤ c && c ≤ 'f') || ('A' ≤ c && c ≤ 'F')

/-- Hex digit value (`unhex` in net/url). -/
def hexVal (c : Char) : Nat :=
  if c.isDigit then c.toNat - 48
  else if 'a' ≤ c then c.toNat - 87
  else c.toNat - 55

/-- Model of `url.QueryUnescape` over char lists: `+` becomes a space,
`%XX` decodes, a malformed `%` escape is an error (`none`).  Multi-byte
UTF-8 escape sequences are decoded byte-by-byte into chars; the claims
only exercise ASCII. -/
def queryUnescapeChars : List Char → Option (List Char)
  | [] => some []
  | '%' :: a :: b :: rest =>
      if isHexChar a && isHexChar b then
        (queryUnescapeChars rest).map (fun l => Char.ofNat (16 * hexVal a + hexVal b) :: l)
      else none
  | ['%'] => none
  | ['%', _] => none
  | '+' :: rest => (queryUnescapeChars rest).map (fun l => ' ' :: l)
  | c :: rest => (queryUnescapeChars rest).map (fun l => c :: l)

/-- Append a value to a key's slot in an association map, preserving
first-insertion order (model of `m[key] = append(m[key], value)`). -/
def addPair (m : List (String × List String)) (k v : String) :
    List (String × List String) :=
  match m with
  | [] => [(k, [v])]
  | (k2, vs) :: rest =>
      if k2 = k then (k2, vs ++ [v]) :: rest else (k2, vs) :: addPair rest k v

/-- One pass of the `url.ParseQuery` loop over the `&`-separated
segments: a segment containing `;` or failing percent-decoding makes the
whole parse fail (hook.go only distinguishes `err != nil`, so the
partially-filled map Go would also return is not modelled). -/
def parseQuerySegs : List (List Char) → Option (List (String × String))
  | [] => some []
  | seg :: rest =>
      if seg.any (fun c => c == ';') then none
      else if seg.isEmpty then parseQuerySegs rest
      else
        let kv := cutAtChar '=' seg
        match queryUnescapeChars kv.1, queryUnescapeChars kv.2 with
        | some k2, some v2 =>
            (parseQuerySegs rest).map (fun l => (String.mk k2, String.mk v2) :: l)
        | _, _ => none

/-- Model of `url.ParseQuery`. -/
def parseQuery (s : String) : Option (List (String × List String)) :=
  if s = "" then some []
  else
    (parseQuerySegs (splitOnChar '&' s.data)).map
      (fun prs => prs.foldl (fun m kv => addPair m kv.1 kv.2) [])

/-- Outcome of `http.Request.ParseMultipartForm`: success (the
`MultipartForm` field is then set), `http.ErrNotMultipart`, or any other
error. -/
inductive MultipartParseOutcome
  | success (f : MultipartFormM)
  | errNotMultipart
  | otherErr (msg : String)
deriving DecidableEq

/-- Model of `http.Request.ParseMultipartForm` (net/http): the request's
`multipartReader` yields `ErrNotMultipart` when the parsed media type of
the Content-Type header is not exactly "multipart/form-data", an error
for a nil body or a missing boundary parameter, and otherwise the
outcome of `multipart.Reader.ReadForm` (abstracted in the request
model).  On `ErrNotMultipart` the request's `MultipartForm` field stays
nil. -/
def parseMultipartForm (r : RequestM) : MultipartParseOutcome :=
  if mediaTypeOf r.contentType ≠ "multipart/form-data" then .errNotMultipart
  else if r.body.isNone then .otherErr "missing form body"
  else if ¬ hasBoundaryParam r.contentType then
    .otherErr "no multipart boundary param in Content-Type"
  else
    match r.readFormResult with
    | .formOk f => .success f
    | .formErr e => .otherErr e

/-- Model of `fmt.Sprintf("%.2f KB", float64(size)/1024)`: `size/1024`
is exactly representable in `float64` (for the sizes in range), and the
`%.2f` formatting rounds the exact value to hundredths, ties to even. -/
def formatKB (size : Nat) : String :=
  let n := size * 100
  let q := n / 1024
  let r := n % 1024
  let h := q + (if 1024 < 2 * r then 1 else if 2 * r < 1024 then 0 else q % 2)
  toString (h / 100) ++ "."
    ++ (if h % 100 < 10 then "0" else "") ++ toString (h % 100) ++ " KB"

/-- hook.go lines 194-201: the `formData` map built from
`MultipartForm.Value` (a key with several values keeps the whole list,
otherwise bare `values[0]`; `ReadForm` never produces an empty value
slice, so the `values[0]` access is modelled with a default). -/
def formDataJson (f : MultipartFormM) : List (String × Json) :=
  f.value.map (fun kv =>
    (kv.1, if 1 < kv.2.length then Json.arr (kv.2.map Json.str)
           else Json.str (kv.2.headD "")))

/-- hook.go lines 205-225: the `fileInfo` map built from
`MultipartForm.File` (filename and "%.2f KB" size, lists when a key has
several files). -/
def fileInfoJson (f : MultipartFormM) : List (String × Json) :=
  f.file.map (fun kf =>
    (kf.1,
     if 1 < kf.2.length then
       Json.obj (sortPairs
         [("nama", Json.arr (kf.2.map (fun fh => Json.str fh.filename))),
          ("ukuran", Json.arr (kf.2.map (fun fh => Json.str (formatKB fh.size))))])
     else
       Json.obj (sortPairs
         [("nama", Json.str (kf.2.headD { filename := "", size := 0 }).filename),
          ("ukuran", Json.str (formatKB (kf.2.headD { filename := "", size := 0 }).size))])))

/-- hook.go lines 227-233: `combinedData`, with the `form_fields` and
`uploaded_files` keys omitted when their maps are empty. -/
def combinedJson (f : MultipartFormM) : Json :=
  Json.obj
    ((if 0 < f.value.length then
        [("form_fields", Json.obj (sortPairs (formDataJson f)))] else [])
     ++ (if 0 < f.file.length then
           [("uploaded_files", Json.obj (sortPairs (fileInfoJson f)))] else []))

/-- The JSON object rendered for a successfully URL-decoded form body
(hook.go lines 254-258): each key maps to its full value list. -/
def urlencodedJson (m : List (String × List String)) : Json :=
  Json.obj (sortPairs (m.map (fun kv => (kv.1, Json.arr (kv.2.map Json.str)))))

/-- One embed field (`name`/`value` pair). -/
structure FieldM where
  name : String
  value : String
deriving DecidableEq

/-- hook.go lines 167-173: `bodyBytes` of the goroutine's second read of
the snapshot body (nil body reads as empty). -/
def bodyBytesOf (r : RequestM) : String :=
  match r.body with
  | some b => b.bytes
  | none => ""

/-- Outcome of building the request-payload field list: either the
fields, or the goroutine panics dereferencing the nil `MultipartForm`
pointer (hook.go line 195 after `ParseMultipartForm` returned
`ErrNotMultipart`). -/
inductive RenderOutcome
  | ok (fields : List FieldM)
  | nilDeref
deriving DecidableEq

/-- hook.go lines 154-280: the live-request branch building the Method,
URL and content-type-dispatched Body fields. -/
def renderLiveFields (r : RequestM) : RenderOutcome :=
  let base : List FieldM :=
    [{ name := "Method", value := "```" ++ r.method ++ " ```" },
     { name := "URL", value := "```" ++ r.url ++ " ```" }]
  let bodyBytes := bodyBytesOf r
  if strContains r.contentType "application/json" then
    .ok (base ++ [{ name := "Body", value := "```" ++ bodyBytes ++ " ```" }])
  else if strContains r.contentType "multipart/form-data" then
    match parseMultipartForm r with
    | .otherErr e =>
        .ok (base ++ [{ name := "Body", value := "```" ++ e ++ "```" }])
    | .errNotMultipart => .nilDeref
    | .success f =>
        .ok (base ++ [{ name := "Body",
                        value := "```" ++ marshalIndent (combinedJson f) ++ "```" }])
  else if strContains r.contentType "application/x-www-form-urlencoded" then
    if bodyBytes.utf8ByteSize > 0 then
      match parseQuery bodyBytes with
      | none =>
          .ok (base ++ [{ name := "Body", value := "```" ++ bodyBytes ++ " ```" }])
      | some m =>
          .ok (base ++ [{ name := "Body",
                          value := "```" ++ marshalIndent (urlencodedJson m) ++ "```" }])
    else .ok base
  else
    if bodyBytes.utf8ByteSize > 0 then
      if bodyBytes.utf8ByteSize ≤ 1024 then
        .ok (base ++ [{ name := "Body", value := "```" ++ bodyBytes ++ " ```" }])
      else .ok base
    else .ok base

/-- hook.go lines 281-306: the manual-fields branch (each field only
when its string is non-empty). -/
def renderManualFields (p : LoggerHttpRequestPayload) : List FieldM :=
  (if p.method ≠ "" then
     [{ name := "Method", value := "```" ++ p.method ++ " ```" }] else [])
  ++ (if p.url ≠ "" then
        [{ name := "URL", value := "```" ++ p.url ++ " ```" }] else [])
  ++ (if p.bodyString ≠ "" then
        [{ name := "Body", value := "```" ++ p.bodyString ++ " ```" }] else [])
  ++ (if p.headers ≠ "" then
        [{ name := "Headers", value := "```" ++ p.headers ++ " ```" }] else [])

/-- hook.go lines 150-307: request payload fields (empty when no typed
payload was snapshotted). -/
def fieldsOutcome : Option LoggerHttpRequestPayload → RenderOutcome
  | none => .ok []
  | some p =>
    match p.request with
    | some r => renderLiveFields r
    | none => .ok (renderManualFields p)

/-- hook.go lines 130-137: `errorMessage` from `entry.Data["error"]`
(`error` values first, then plain strings). -/
def errorMessageOf (e : Entry) : String :=
  match e.data.lookup "error" with
  | some (.errValue m) => m
  | some (.strValue s) => s
  | _ => ""

/-- One Discord embed of the outgoing document. -/
structure EmbedM where
  title : String
  description : Option String
  timestamp : Option String
  color : Nat
  fields : Option (List FieldM)
deriving DecidableEq

/-- The outgoing webhook document (`username` plus `embeds`); its JSON
serialization (`json.Marshal`) is kept at this structured level. -/
structure DocumentM where
  username : String
  embeds : List EmbedM
deriving DecidableEq

/-- The outbound POST built by the goroutine: either a single-part JSON
body, or a multipart body with a `payload_json` field holding the
serialized document and a `files[0]` file part. -/
inductive Delivery
  | inlineJson (doc : DocumentM)
  | multipartFile (doc : DocumentM) (filename : String) (content : String)
deriving DecidableEq

/-- The document carried by a delivery. -/
def Delivery.document : Delivery → DocumentM
  | .inlineJson doc => doc
  | .multipartFile doc _ _ => doc

/-- hook.go lines 309-414: compose the embeds from the rendered fields
and pick the delivery mode.  `sendAsFile` is `len(entry.Message) > 500`
(Go `len` = byte length); when false a "MESSAGE" embed is appended and
the POST is single-part JSON, when true the document goes out as the
`payload_json` part of a multipart POST whose `files[0]` part is
"log.txt" holding exactly the message bytes. -/
def composeDelivery (e : Entry) (fields : List FieldM) : Delivery :=
  let errorMessage := errorMessageOf e
  let color := embedColor e.level
  let messageToSend := e.message
  let sendAsFile := messageToSend.utf8ByteSize > 500
  let baseEmbeds : List EmbedM :=
    [{ title := upperS (LogrusLevel.str e.level), description := some errorMessage,
       timestamp := some e.timeRFC3339, color := color, fields := none },
     { title := "REQUEST PAYLOAD", description := none, timestamp := none,
       color := color, fields := some fields }]
  if sendAsFile then
    Delivery.multipartFile { username := "Golang", embeds := baseEmbeds }
      "log.txt" messageToSend
  else
    Delivery.inlineJson
      { username := "Golang",
        embeds := baseEmbeds ++
          [{ title := "MESSAGE",
             description := some ("```" ++ messageToSend ++ " ```"),
             timestamp := none, color := color, fields := none }] }

/-- What the delivery goroutine does: either it produces an outbound
POST, or it panics (nil `MultipartForm` dereference). -/
inductive GoOutcome
  | delivered (d : Delivery)
  | panicked
deriving DecidableEq

/-- hook.go lines 129-416: the goroutine body, as a pure function of the
entry and the snapshotted payload. -/
def runGoroutine (e : Entry) (drp : Option LoggerHttpRequestPayload) : GoOutcome :=
  match fieldsOutcome drp with
  | .nilDeref => .panicked
  | .ok fields => .delivered (composeDelivery e fields)

/-- hook.go lines 96-127: the synchronous snapshot step.  Returns the
snapshot passed to the goroutine and the caller's live request as it
stands after `Fire` returns (its body stream replaced by a fresh buffer
of the bytes `io.ReadAll` obtained — the read error, if any, is
discarded, so a failing stream contributes the prefix it yielded).
`none` in the second component means no live request was captured, so
the caller's objects were not touched. -/
def snapshotStep (e : Entry) : Option LoggerHttpRequestPayload × Option RequestM :=
  match e.data.lookup REQUEST_FIELD_KEY with
  | some (.reqPayload p) =>
    match p.request with
    | some req =>
      match req.body with
      | some stream =>
          (some { request := some { req with body := some { bytes := stream.bytes, failsAfter := false } },
                  method := "", url := "", bodyString := "", headers := "" },
           some { req with body := some { bytes := stream.bytes, failsAfter := false } })
      | none =>
          (some { request := some req, method := "", url := "", bodyString := "",
                  headers := "" },
           some req)
    | none =>
        (some { request := none, method := p.method, url := p.url,
                bodyString := p.bodyString, headers := p.headers },
         none)
  | _ => (none, none)

/-- Result of a successful `Fire` call: the caller's request after the
snapshot step, the snapshot itself, and what the launched goroutine
produces. -/
structure FireOk where
  callerRequest : Option RequestM
  snapshot : Option LoggerHttpRequestPayload
  outcome : GoOutcome
deriving DecidableEq

/-- hook.go lines 91-419: `Fire`.  An empty webhook URL fails fast
(before the snapshot step, launching nothing); otherwise the snapshot is
taken synchronously, the goroutine is launched, and `nil` is returned. -/
def Fire (h : Hook) (e : Entry) : Except String FireOk :=
  if h.HookUrl = "" then Except.error "Discord webhook url is empty"
  else
    Except.ok { callerRequest := (snapshotStep e).2,
                snapshot := (snapshotStep e).1,
                outcome := runGoroutine e (snapshotStep e).1 }

/-- Does `entry.Data["request"]` hold a value of dynamic type
`LoggerHttpRequestPayload` (the only case hook.go's type assertion
accepts)? -/
def hasTypedRequestField (e : Entry) : Bool :=
  match e.data.lookup REQUEST_FIELD_KEY with
  | some (.reqPayload _) => true
  | _ => false

/-- Projection: the bytes now buffered in the caller's request body
after `Fire`. -/
def callerBodyBytes : Except String FireOk → Option String
  | .ok r => r.callerRequest.bind (fun q => q.body.map (fun b => b.bytes))
  | .error _ => none

/-- Projection: the bytes buffered in the snapshot's request body. -/
def snapshotBodyBytes : Except String FireOk → Option String
  | .ok r => r.snapshot.bind (fun sp => sp.request.bind
      (fun q => q.body.map (fun b => b.bytes)))
  | .error _ => none

/-- Concrete entry with no side-channel data. -/
def plainEntry : Entry :=
  { data := [], level := .InfoLevel, message := "hello", timeRFC3339 := "T" }

/-- Concrete live request whose body stream yields "hello" and then EOF. -/
def c3req : RequestM :=
  { method := "GET", url := "https://api.example.com/users",
    contentType := "application/json",
    body := some { bytes := "hello", failsAfter := false },
    readFormResult := .formErr "" }

/-- Payload wrapping `c3req`. -/
def c3payload : LoggerHttpRequestPayload :=
  { request := some c3req, method := "", url := "", bodyString := "", headers := "" }

/-- Entry carrying `c3payload` under the "request" key. -/
def c3entry : Entry :=
  { data := [(REQUEST_FIELD_KEY, .reqPayload c3payload)], level := .ErrorLevel,
    message := "boom", timeRFC3339 := "T" }

/-- Hook with a non-empty webhook URL. -/
def someHook : Hook := { HookUrl := "https://discord.example/webhook", lvl := [] }

/-- Concrete live request whose body stream yields the prefix "ab" and
then fails with a read error. -/
def c8req : RequestM :=
  { method := "GET", url := "https://api.example.com/users", contentType := "",
    body := some { bytes := "ab", failsAfter := true },
    readFormResult := .formErr "" }

/-- Payload wrapping `c8req`. -/
def c8payload : LoggerHttpRequestPayload :=
  { request := some c8req, method := "", url := "", bodyString := "", headers := "" }

/-- Entry carrying `c8payload` under the "request" key. -/
def c8entry : Entry :=
  { data := [(REQUEST_FIELD_KEY, .reqPayload c8payload)], level := .ErrorLevel,
    message := "boom", timeRFC3339 := "T" }

/-- Concrete live request whose Content-Type contains the substring
"multipart/form-data" although its media type is not multipart/form-data
(so `ParseMultipartForm` returns `http.ErrNotMultipart`). -/
def c4req : RequestM :=
  { method := "POST", url := "https://api.example.com/upload",
    contentType := "xmultipart/form-data",
    body := some { bytes := "data", failsAfter := false },
    readFormResult := .formErr "unreachable" }

/-- Payload wrapping `c4req`. -/
def c4payload : LoggerHttpRequestPayload :=
  { request := some c4req, method := "", url := "", bodyString := "", headers := "" }

/-- Entry carrying `c4payload` under the "request" key. -/
def c4entry : Entry :=
  { data := [(REQUEST_FIELD_KEY, .reqPayload c4payload)], level := .ErrorLevel,
    message := "boom", timeRFC3339 := "T" }

/-- Concrete urlencoded request with body "a=1&b=2". -/
def c6req : RequestM :=
  { method := "POST", url := "https://api.example.com/form",
    contentType := "application/x-www-form-urlencoded",
    body := some { bytes := "a=1&b=2", failsAfter := false },
    readFormResult := .formErr "" }

/-- Concrete request with an unrecognized content type and a small body. -/
def c7req : RequestM :=
  { method := "PUT", url := "https://api.example.com/raw",
    contentType := "text/plain",
    body := some { bytes := "abc", failsAfter := false },
    readFormResult := .formErr "" }

/-- Entry whose "request" field holds a value of the wrong dynamic type
(a plain string), which the type assertion rejects. -/
def c10entry : Entry :=
  { data := [(REQUEST_FIELD_KEY, .strValue "oops")], level := .WarnLevel,
    message := "m", timeRFC3339 := "T" }

/-- Helper: no uppercased level name equals "MESSAGE". -/
theorem upperLevel_ne_MESSAGE (l : LogrusLevel) :
    upperS (LogrusLevel.str l) ≠ "MESSAGE" := by
  cases l <;> decide

/-- Helper: a successful `Fire` on an entry whose "request" field holds a
typed payload with a live request and a body stream replaces both the
caller's body and the snapshot's body with a fresh buffer of the bytes
the stream yielded before stopping. -/
theorem fire_live_body (h : Hook) (e : Entry) (p : LoggerHttpRequestPayload)
    (req : RequestM) (s : BodyStreamM)
    (hurl : h.HookUrl ≠ "")
    (hl : e.data.lookup REQUEST_FIELD_KEY = some (.reqPayload p))
    (hp : p.request = some req) (hb : req.body = some s) :
    Fire h e = Except.ok
      { callerRequest := some { req with body := some { bytes := s.bytes, failsAfter := false } },
        snapshot := some { request := some { req with body := some { bytes := s.bytes, failsAfter := false } },
                           method := "", url := "", bodyString := "", headers := "" },
        outcome := runGoroutine e (some { request := some { req with body := some { bytes := s.bytes, failsAfter := false } },
                                          method := "", url := "", bodyString := "", headers := "" }) } := by
  have hsnap : snapshotStep e =
      (some { request := some { req with body := some { bytes := s.bytes, failsAfter := false } },
              method := "", url := "", bodyString := "", headers := "" },
       some { req with body := some { bytes := s.bytes, failsAfter := false } }) := by
    simp only [snapshotStep, hl, hp, hb]
  simp [Fire, hurl, hsnap]

/-- C9: the severity classifier is total over all seven levels; Panic,
Fatal and Error map to the red constant 16725591, Warn to the yellow
constant 16760630, and every other level to the blue constant
12434877. -/
theorem c9_classifier_total (l : LogrusLevel) :
    embedColor l =
      (if l = .PanicLevel ∨ l = .FatalLevel ∨ l = .ErrorLevel then 16725591
       else if l = .WarnLevel then 16760630
       else 12434877) := by
  cases l <;> rfl

/-- C5: `NewHook` with no levels subscribes exactly to
Panic/Fatal/Error/Warn, and an explicit non-empty level list replaces
the default. -/
theorem c5_levels_default_or_explicit (url : String) (ls : List LogrusLevel) :
    (NewHook url []).Levels = [.PanicLevel, .FatalLevel, .ErrorLevel, .WarnLevel] ∧
    (ls ≠ [] → (NewHook url ls).Levels = ls) := by
  refine ⟨rfl, fun hne => ?_⟩
  simp [NewHook, Hook.Levels, List.length_eq_zero, hne]

/-- Witness for C5 at a concrete URL and level list. -/
theorem c5_levels_default_or_explicit_witness :
    (NewHook "https://w" []).Levels =
      [.PanicLevel, .FatalLevel, .ErrorLevel, .WarnLevel] ∧
    (NewHook "https://w" [.InfoLevel]).Levels = [.InfoLevel] :=
  ⟨(c5_levels_default_or_explicit "https://w" [.InfoLevel]).1,
   (c5_levels_default_or_explicit "https://w" [.InfoLevel]).2 (by decide)⟩

/-- C2: `Fire` fails (with the configuration error, before the snapshot
step and without launching a delivery) exactly when the webhook URL is
empty; with a non-empty URL it returns successfully for every entry. -/
theorem c2_fire_fails_iff_empty_url (h : Hook) (e : Entry) :
    (h.HookUrl = "" → Fire h e = Except.error "Discord webhook url is empty") ∧
    (h.HookUrl ≠ "" →
      Fire h e = Except.ok { callerRequest := (snapshotStep e).2,
                             snapshot := (snapshotStep e).1,
                             outcome := runGoroutine e (snapshotStep e).1 }) := by
  constructor
  · intro hu; simp [Fire, hu]
  · intro hu; simp [Fire, hu]

/-- Witness for C2: the empty-URL hook fails, a non-empty-URL hook
succeeds, at a concrete entry. -/
theorem c2_fire_fails_iff_empty_url_witness :
    Fire { HookUrl := "", lvl := [] } plainEntry =
      Except.error "Discord webhook url is empty" ∧
    Fire someHook plainEntry =
      Except.ok { callerRequest := (snapshotStep plainEntry).2,
                  snapshot := (snapshotStep plainEntry).1,
                  outcome := runGoroutine plainEntry (snapshotStep plainEntry).1 } :=
  ⟨(c2_fire_fails_iff_empty_url { HookUrl := "", lvl := [] } plainEntry).1 rfl,
   (c2_fire_fails_iff_empty_url someHook plainEntry).2 (by decide)⟩

/-- C3: for a live request whose body stream yields bytes B and then
EOF, after `Fire` returns the caller's request holds a fresh reader over
exactly B and the snapshot holds its own fresh reader over exactly B. -/
theorem c3_caller_stream_restored (h : Hook) (e : Entry)
    (p : LoggerHttpRequestPayload) (req : RequestM) (s : BodyStreamM)
    (hurl : h.HookUrl ≠ "")
    (hl : e.data.lookup REQUEST_FIELD_KEY = some (.reqPayload p))
    (hp : p.request = some req) (hb : req.body = some s)
    (hok : s.failsAfter = false) :
    ∃ r, Fire h e = Except.ok r ∧
      (∃ q, r.callerRequest = some q ∧
        q.body = some { bytes := s.bytes, failsAfter := false }) ∧
      (∃ sp q2, r.snapshot = some sp ∧ sp.request = some q2 ∧
        q2.body = some { bytes := s.bytes, failsAfter := false }) :=
  ⟨_, fire_live_body h e p req s hurl hl hp hb, ⟨_, rfl, rfl⟩, ⟨_, _, rfl, rfl, rfl⟩⟩

/-- Witness for C3 at a concrete hook, entry and stream yielding
"hello". -/
theorem c3_caller_stream_restored_witness :
    ∃ r, Fire someHook c3entry = Except.ok r ∧
      (∃ q, r.callerRequest = some q ∧
        q.body = some { bytes := "hello", failsAfter := false }) ∧
      (∃ sp q2, r.snapshot = some sp ∧ sp.request = some q2 ∧
        q2.body = some { bytes := "hello", failsAfter := false }) :=
  c3_caller_stream_restored someHook c3entry c3payload c3req
    { bytes := "hello", failsAfter := false } (by decide) rfl rfl rfl rfl

/-- C8 counterexample: a body stream that yields the prefix "ab" and
then fails.  `Fire` still succeeds, but both restored readers buffer
"ab" — not the empty body the claim asserts. -/
theorem c8_partial_read_counterexample :
    c8req.body = some { bytes := "ab", failsAfter := true } ∧
    callerBodyBytes (Fire someHook c8entry) = some "ab" ∧
    snapshotBodyBytes (Fire someHook c8entry) = some "ab" ∧
    some "ab" ≠ some "" := by
  exact ⟨rfl, by decide, by decide, by decide⟩

/-- C8 amended: if the body stream fails during the snapshot, `Fire`
still returns nil and the pipeline proceeds with the prefix the stream
yielded before failing (empty only when the failure was immediate); the
read error is never propagated. -/
theorem c8_read_failure_keeps_prefix (h : Hook) (e : Entry)
    (p : LoggerHttpRequestPayload) (req : RequestM) (s : BodyStreamM)
    (hurl : h.HookUrl ≠ "")
    (hl : e.data.lookup REQUEST_FIELD_KEY = some (.reqPayload p))
    (hp : p.request = some req) (hb : req.body = some s)
    (hfail : s.failsAfter = true) :
    ∃ r, Fire h e = Except.ok r ∧
      (∃ q, r.callerRequest = some q ∧
        q.body = some { bytes := s.bytes, failsAfter := false }) ∧
      (∃ sp q2, r.snapshot = some sp ∧ sp.request = some q2 ∧
        q2.body = some { bytes := s.bytes, failsAfter := false }) :=
  ⟨_, fire_live_body h e p req s hurl hl hp hb, ⟨_, rfl, rfl⟩, ⟨_, _, rfl, rfl, rfl⟩⟩

/-- Witness for the amended C8 at a concrete failing stream. -/
theorem c8_read_failure_keeps_prefix_witness :
    ∃ r, Fire someHook c8entry = Except.ok r ∧
      (∃ q, r.callerRequest = some q ∧
        q.body = some { bytes := "ab", failsAfter := false }) ∧
      (∃ sp q2, r.snapshot = some sp ∧ sp.request = some q2 ∧
        q2.body = some { bytes := "ab", failsAfter := false }) :=
  c8_read_failure_keeps_prefix someHook c8entry c8payload c8req
    { bytes := "ab", failsAfter := true } (by decide) rfl rfl rfl rfl

/-- C4 (code bug): a Content-Type containing the substring
"multipart/form-data" whose media type is not multipart/form-data makes
`ParseMultipartForm` return `http.ErrNotMultipart`; hook.go then takes
the non-error branch and dereferences the nil `MultipartForm` pointer,
so the goroutine panics instead of recovering and delivering. -/
theorem c4_notmultipart_nil_deref :
    strContains c4req.contentType "multipart/form-data" = true ∧
    parseMultipartForm c4req = MultipartParseOutcome.errNotMultipart ∧
    renderLiveFields c4req = RenderOutcome.nilDeref ∧
    (Except.toOption (Fire someHook c4entry)).map FireOk.outcome =
      some GoOutcome.panicked := by
  exact ⟨by decide, by decide, by decide, by decide⟩

/-- C1: when the goroutine delivers, the delivery carries exactly one of
the inline "MESSAGE" section (message byte length at most 500: the POST
is single-part JSON whose document contains a "MESSAGE" embed with the
fenced message) or the file attachment (length over 500: the POST is
multipart with the document as `payload_json`, a "log.txt" file part
holding exactly the message bytes, and no "MESSAGE" embed). -/
theorem c1_inline_message_or_file (e : Entry) (drp : Option LoggerHttpRequestPayload)
    (d : Delivery) (hd : runGoroutine e drp = GoOutcome.delivered d) :
    (e.message.utf8ByteSize ≤ 500 →
      ∃ doc, d = Delivery.inlineJson doc ∧
        ∃ em, em ∈ doc.embeds ∧ em.title = "MESSAGE" ∧
          em.description = some ("```" ++ e.message ++ " ```")) ∧
    (500 < e.message.utf8ByteSize →
      ∃ doc, d = Delivery.multipartFile doc "log.txt" e.message ∧
        ∀ em, em ∈ doc.embeds → em.title ≠ "MESSAGE") := by
  unfold runGoroutine at hd
  cases hfo : fieldsOutcome drp with
  | nilDeref => rw [hfo] at hd; simp at hd
  | ok fields =>
    rw [hfo] at hd
    simp only at hd
    injection hd with hd
    subst hd
    constructor
    · intro hle
      have hnot : ¬ (e.message.utf8ByteSize > 500) := by omega
      simp only [composeDelivery]
      rw [if_neg hnot]
      refine ⟨_, rfl, ?_⟩
      exact ⟨_, List.mem_append_right _ (List.mem_singleton_self _), rfl, rfl⟩
    · intro hgt
      simp only [composeDelivery]
      rw [if_pos hgt]
      refine ⟨_, rfl, ?_⟩
      intro em hem
      simp only [List.mem_cons, List.not_mem_nil, or_false] at hem
      rcases hem with hem | hem
      · subst hem; exact upperLevel_ne_MESSAGE e.level
      · subst hem; show "REQUEST PAYLOAD" ≠ "MESSAGE"; decide

/-- Witness for C1 at a concrete short-message entry. -/
theorem c1_inline_message_or_file_witness :
    plainEntry.message.utf8ByteSize ≤ 500 ∧
    ∃ d doc, runGoroutine plainEntry none = GoOutcome.delivered d ∧
      d = Delivery.inlineJson doc ∧
      ∃ em, em ∈ doc.embeds ∧ em.title = "MESSAGE" ∧
        em.description = some ("```" ++ plainEntry.message ++ " ```") := by
  refine ⟨by decide, ?_⟩
  cases hrun : runGoroutine plainEntry none with
  | panicked => exact absurd hrun (by decide)
  | delivered d =>
    obtain ⟨doc, hdoc, hmem⟩ :=
      (c1_inline_message_or_file plainEntry none d hrun).1 (by decide)
    exact ⟨d, doc, rfl, hdoc, hmem⟩

/-- C10: when the "request" field is absent or holds a value of any
dynamic type other than `LoggerHttpRequestPayload`, the snapshot is
silently empty: `Fire` still succeeds, the caller's request is untouched,
no request fields are rendered, and the delivered document's
"REQUEST PAYLOAD" embed carries an empty field list. -/
theorem c10_untyped_request_ignored (h : Hook) (e : Entry)
    (hurl : h.HookUrl ≠ "") (hfield : hasTypedRequestField e = false) :
    ∃ r, Fire h e = Except.ok r ∧ r.snapshot = none ∧ r.callerRequest = none ∧
      ∃ d, r.outcome = GoOutcome.delivered d ∧
        (Delivery.document d).embeds[1]? =
          some { title := "REQUEST PAYLOAD", description := none, timestamp := none,
                 color := embedColor e.level, fields := some ([] : List FieldM) } := by
  have hsnap : snapshotStep e = (none, none) := by
    unfold snapshotStep
    unfold hasTypedRequestField at hfield
    revert hfield
    cases e.data.lookup REQUEST_FIELD_KEY with
    | none => intro _; rfl
    | some v => cases v <;> intro hfield <;> first | rfl | exact Bool.noConfusion hfield
  have hfire : Fire h e =
      Except.ok { callerRequest := none, snapshot := none,
                  outcome := runGoroutine e none } := by
    simp [Fire, hurl, hsnap]
  have hrun : runGoroutine e none = GoOutcome.delivered (composeDelivery e []) := rfl
  refine ⟨_, hfire, rfl, rfl, composeDelivery e [], hrun, ?_⟩
  by_cases hs : e.message.utf8ByteSize > 500
  · simp only [composeDelivery, if_pos hs, Delivery.document]
    simp
  · simp only [composeDelivery, if_neg hs, Delivery.document]
    simp

/-- Witness for C10 at an entry whose "request" field holds a string. -/
theorem c10_untyped_request_ignored_witness :
    ∃ r, Fire someHook c10entry = Except.ok r ∧ r.snapshot = none ∧
      r.callerRequest = none ∧
      ∃ d, r.outcome = GoOutcome.delivered d ∧
        (Delivery.document d).embeds[1]? =
          some { title := "REQUEST PAYLOAD", description := none, timestamp := none,
                 color := embedColor c10entry.level, fields := some ([] : List FieldM) } :=
  c10_untyped_request_ignored someHook c10entry (by decide) (by decide)

/-- C7: with an unrecognized (or missing) content type, a raw "Body"
field is rendered exactly when the body is non-empty and at most 1024
bytes; larger bodies are dropped without truncation and an empty body
yields no "Body" field. -/
theorem c7_default_raw_body_cap (r : RequestM)
    (h1 : strContains r.contentType "application/json" = false)
    (h2 : strContains r.contentType "multipart/form-data" = false)
    (h3 : strContains r.contentType "application/x-www-form-urlencoded" = false) :
    renderLiveFields r = RenderOutcome.ok
      ([{ name := "Method", value := "```" ++ r.method ++ " ```" },
        { name := "URL", value := "```" ++ r.url ++ " ```" }] ++
       (if 0 < (bodyBytesOf r).utf8ByteSize ∧ (bodyBytesOf r).utf8ByteSize ≤ 1024 then
          [{ name := "Body", value := "```" ++ bodyBytesOf r ++ " ```" }]
        else [])) := by
  unfold renderLiveFields
  simp only [h1, h2, h3, Bool.false_eq_true, if_false]
  by_cases hp : (bodyBytesOf r).utf8ByteSize > 0
  · by_cases hq : (bodyBytesOf r).utf8ByteSize ≤ 1024
    · simp [hp, hq]
    · simp [hp, hq, Nat.lt_of_not_le hq]
  · have h0 : (bodyBytesOf r).utf8ByteSize = 0 := by omega
    simp [h0]

/-- Witness for C7 at a "text/plain" request with a 3-byte body. -/
theorem c7_default_raw_body_cap_witness :
    renderLiveFields c7req = RenderOutcome.ok
      ([{ name := "Method", value := "```" ++ c7req.method ++ " ```" },
        { name := "URL", value := "```" ++ c7req.url ++ " ```" }] ++
       (if 0 < (bodyBytesOf c7req).utf8ByteSize ∧
           (bodyBytesOf c7req).utf8ByteSize ≤ 1024 then
          [{ name := "Body", value := "```" ++ bodyBytesOf c7req ++ " ```" }]
        else [])) :=
  c7_default_raw_body_cap c7req (by decide) (by decide) (by decide)

/-- C6: for an urlencoded request, an empty body yields no "Body" field;
a body that fails `url.ParseQuery` is rendered raw and fenced; a body
that parses is rendered as the indented JSON object mapping each key to
its list of values. -/
theorem c6_urlencoded_rendering (r : RequestM)
    (h1 : strContains r.contentType "application/json" = false)
    (h2 : strContains r.contentType "multipart/form-data" = false)
    (h3 : strContains r.contentType "application/x-www-form-urlencoded" = true) :
    ((bodyBytesOf r).utf8ByteSize = 0 →
      renderLiveFields r = RenderOutcome.ok
        [{ name := "Method", value := "```" ++ r.method ++ " ```" },
         { name := "URL", value := "```" ++ r.url ++ " ```" }]) ∧
    (0 < (bodyBytesOf r).utf8ByteSize → parseQuery (bodyBytesOf r) = none →
      renderLiveFields r = RenderOutcome.ok
        [{ name := "Method", value := "```" ++ r.method ++ " ```" },
         { name := "URL", value := "```" ++ r.url ++ " ```" },
         { name := "Body", value := "```" ++ bodyBytesOf r ++ " ```" }]) ∧
    (∀ m, 0 < (bodyBytesOf r).utf8ByteSize → parseQuery (bodyBytesOf r) = some m →
      renderLiveFields r = RenderOutcome.ok
        [{ name := "Method", value := "```" ++ r.method ++ " ```" },
         { name := "URL", value := "```" ++ r.url ++ " ```" },
         { name := "Body",
           value := "```" ++ marshalIndent (urlencodedJson m) ++ "```" }]) := by
  refine ⟨?_, ?_, ?_⟩
  · intro h0
    simp [renderLiveFields, h1, h2, h3, h0]
  · intro hpos hnone
    simp [renderLiveFields, h1, h2, h3, hpos, hnone]
  · intro m hpos hsome
    simp [renderLiveFields, h1, h2, h3, hpos, hsome]

/-- Witness for C6 at body "a=1&b=2", whose parse yields the map with
"a" ↦ ["1"] and "b" ↦ ["2"]. -/
theorem c6_urlencoded_rendering_witness :
    parseQuery "a=1&b=2" = some [("a", ["1"]), ("b", ["2"])] ∧
    renderLiveFields c6req = RenderOutcome.ok
      [{ name := "Method", value := "```" ++ c6req.method ++ " ```" },
       { name := "URL", value := "```" ++ c6req.url ++ " ```" },
       { name := "Body",
         value := "```" ++ marshalIndent (urlencodedJson [("a", ["1"]), ("b", ["2"])]) ++ "```" }] :=
  ⟨by decide,
   (c6_urlencoded_rendering c6req (by decide) (by decide) (by decide)).2.2
     [("a", ["1"]), ("b", ["2"])] (by decide) (by decide)⟩
